import Mathlib

/-!
# LWButton: the light-weight icon button of `rtgui/lwbutton.cc`

A shallow embedding of the button widget and a verification of its
specification.

Modelling conventions.

* C++ `int` values are Lean `Int`s.  The sums `xpos + w` and `ypos + h` of the
  containment test are 32-bit sums: they are modelled as `wrapInt` of the exact
  sum, the two's-complement wrap-around that the compiled code computes when
  the exact sum leaves the `int` range (the C++ standard leaves that case
  undefined).  The sums `get_width () + 2` and `get_height () + 2` are exact:
  an image surface is at most 32767 pixels wide and high.  The sum
  `xpos + dilat` of the drawing routine is taken exactly; it leaves the `int`
  range only for `xpos` within one of the largest `int`.
  The bitwise operations `|`, `&`, `~` on `int` are the two's-complement
  operations `Int.lor`, `Int.land`, `Int.lnot`, which never leave the range of
  their arguments.
* The stored colour channels are `double`s that are only copied, never computed
  with; they are carried as rationals.  The rectangle passed to the drawing
  context (`xpos + 0.5`, `w - 1.0`) is exact in `double` for every `int`.
* `listener` is a pointer; `none` is `NULL`.  A call through the listener is
  recorded as a `Notification` in the list an operation returns, in call order.
  The `this` argument of the callbacks is the button itself and is not recorded.
* A `Cairo::RefPtr<Cairo::ImageSurface>` is `none` when null and otherwise an
  image surface with its two dimensions.
* Calls on the drawing context are recorded as a list of `DrawCmd`.
* `lwbutton.h` is not part of the sources at hand: the enumerators of `State`
  are taken from their uses in `lwbutton.cc`, an `Alignment` is carried as an
  integer, and the numeric values of the pressed-button flags (`None`,
  `Button3`, ...) are a parameter `PressedFlags` of the operations that mention
  them.
-/

namespace Rtgui

/-- Horizontal and vertical alignment of a button (`LWButton::Alignment`).  The
enumeration is declared in `lwbutton.h` and `lwbutton.cc` names none of its
enumerators; a value is carried as the integer of its enumerator. -/
structure Alignment where
  code : Int
  deriving DecidableEq, Repr

/-- The interaction state of a button (`LWButton::State`): the enumerators that
`lwbutton.cc` names, which are the five states of the specification. -/
inductive State where
  | Normal
  | Over
  | Pressed_In
  | Pressed_Out
  | Invisible
  deriving DecidableEq, Repr

/-- An image surface, as far as the button looks at it: its dimensions. -/
structure ImageSurface where
  get_width : Int
  get_height : Int
  deriving DecidableEq, Repr

/-- A `Gdk::Color`, as far as the button looks at it: its normalised channels. -/
structure Color where
  get_red_p : Rat
  get_green_p : Rat
  get_blue_p : Rat
  deriving DecidableEq, Repr

/-- The numeric values of the pressed-button flags.  They are declared in
`lwbutton.h`; the operations take them as a parameter. -/
structure PressedFlags where
  None : Int
  Button1 : Int
  Button2 : Int
  Button3 : Int
  deriving DecidableEq, Repr

/-- Modelled from the spec: the values of the pressed-button flags declared in
`lwbutton.h`, "using flag bits per button number": an empty mask and one bit for
each of the three buttons. -/
def stdFlags : PressedFlags :=
  { None := 0, Button1 := 1, Button2 := 2, Button3 := 4 }

/-- A call made through the listener interface (`LWButtonListener`). -/
inductive Notification where
  | redrawNeeded
  | button1Pressed (actionCode : Int) (actionData : Nat)
  | button2Pressed (actionCode : Int) (actionData : Nat)
  | button3Pressed (actionCode : Int) (actionData : Nat)
  deriving DecidableEq, Repr

/-- A call made on the drawing context (`Cairo::Context`). -/
inductive DrawCmd where
  | set_line_width (width : Rat)
  | set_antialias_subpixel
  | rectangle (x y width height : Rat)
  | set_source_rgb (r g b : Rat)
  | set_source_rgba (r g b a : Rat)
  | fill
  | fill_preserve
  | stroke
  | set_source (icon : ImageSurface) (x y : Int)
  | paint
  deriving DecidableEq, Repr

/-- The data members of `LWButton`. -/
structure LWButton where
  xpos : Int
  ypos : Int
  w : Int
  h : Int
  halign : Alignment
  valign : Alignment
  icon : Option ImageSurface
  bgr : Rat
  bgg : Rat
  bgb : Rat
  fgr : Rat
  fgg : Rat
  fgb : Rat
  state : State
  pressedButton : Int
  listener : Option Nat
  actionCode : Int
  actionData : Nat
  toolTip : String
  deriving DecidableEq, Repr

/-- What an event handler leaves behind: the button, the returned `bool` and the
calls made through the listener. -/
structure Handled where
  button : LWButton
  ret : Bool
  events : List Notification
  deriving DecidableEq, Repr

/-- What a `void` operation leaves behind: the button and the calls made through
the listener. -/
structure Shown where
  button : LWButton
  events : List Notification
  deriving DecidableEq, Repr

/-- Whether a listener call is one of the three click callbacks. -/
def Notification.isClick : Notification → Bool
  | .redrawNeeded => false
  | .button1Pressed _ _ => true
  | .button2Pressed _ _ => true
  | .button3Pressed _ _ => true

/-- The click callbacks among the listener calls, in call order. -/
def clicks (l : List Notification) : List Notification :=
  l.filter Notification.isClick

/-- The smallest value of a 32-bit `int`. -/
def INT_MIN : Int := -2147483648

/-- The largest value of a 32-bit `int`. -/
def INT_MAX : Int := 2147483647

/-- The 32-bit `int` that a sum of two `int`s yields: the exact sum when it lies
between `INT_MIN` and `INT_MAX`, and otherwise the exact sum wrapped around
modulo 2^32 into that range. -/
def wrapInt (n : Int) : Int :=
  (n + 2147483648) % 4294967296 - 2147483648

namespace LWButton

/-- The constructor `LWButton::LWButton`.  The members it does not initialise
(`xpos`, `ypos` and the six colour channels) keep the indeterminate content of
`raw`. -/
def new (F : PressedFlags) (raw : LWButton) (i : Option ImageSurface) (aCode : Int)
    (aData : Nat) (ha va : Alignment) (tooltip : String) : LWButton :=
  let b : LWButton :=
    { raw with
      halign := ha, valign := va, icon := i, state := State.Normal,
      pressedButton := F.None, listener := none, actionCode := aCode,
      actionData := aData, toolTip := tooltip }
  match i with
  | some s => { b with w := s.get_width + 2, h := s.get_height + 2 }
  | none => { b with w := 2, h := 2 }

/-- The accessor `LWButton::getSize`: the pair `(minw, minh)`. -/
def getSize (b : LWButton) : Int × Int :=
  (b.w, b.h)

/-- The setter `LWButton::setPosition`. -/
def setPosition (b : LWButton) (x y : Int) : LWButton :=
  { b with xpos := x, ypos := y }

/-- The accessor `LWButton::getPosition`: the pair `(x, y)`. -/
def getPosition (b : LWButton) : Int × Int :=
  (b.xpos, b.ypos)

/-- The setter `LWButton::setIcon`. -/
def setIcon (b : LWButton) (i : Option ImageSurface) : LWButton :=
  match i with
  | some s => { b with icon := i, w := s.get_width + 2, h := s.get_height + 2 }
  | none => { b with icon := i, w := 2, h := 2 }

/-- The accessor `LWButton::getIcon`. -/
def getIcon (b : LWButton) : Option ImageSurface :=
  b.icon

/-- The setter `LWButton::setColors`. -/
def setColors (b : LWButton) (bg fg : Color) : LWButton :=
  { b with
    bgr := bg.get_red_p, bgg := bg.get_green_p, bgb := bg.get_blue_p,
    fgr := fg.get_red_p, fgg := fg.get_green_p, fgb := fg.get_blue_p }

/-- The test `LWButton::inside`.  The sums `xpos + w` and `ypos + h` are `int`
sums. -/
def inside (b : LWButton) (x y : Int) : Bool :=
  if b.state = State.Invisible then false
  else decide (x > b.xpos) && decide (x < wrapInt (b.xpos + b.w))
    && decide (y > b.ypos) && decide (y < wrapInt (b.ypos + b.h))

/-- The calls `if (listener) listener->redrawNeeded (this);`. -/
def notifyRedraw (b : LWButton) : List Notification :=
  if b.listener.isSome then [Notification.redrawNeeded] else []

/-- The new state `nstate` computed by `LWButton::motionNotify`. -/
def motionState (s : State) (in_ : Bool) : State :=
  if s = State.Normal ∧ in_ = true then State.Over
  else if s = State.Over ∧ in_ = false then State.Normal
  else if s = State.Pressed_In ∧ in_ = false then State.Pressed_Out
  else if s = State.Pressed_Out ∧ in_ = true then State.Pressed_In
  else s

/-- The handler `LWButton::motionNotify`. -/
def motionNotify (b : LWButton) (x y _bstate : Int) : Handled :=
  if b.state = State.Invisible then ⟨b, false, []⟩
  else
    let in_ := b.inside x y
    let nstate := motionState b.state in_
    if b.state ≠ nstate then
      ⟨{ b with state := nstate }, true, notifyRedraw b⟩
    else ⟨b, in_, []⟩

/-- The first branch condition of `LWButton::pressNotify`: the press lands
inside a button that is not already pressed in. -/
def pressTaken (s : State) (in_ : Bool) : Bool :=
  in_ && (decide (s = State.Normal) || decide (s = State.Over) || decide (s = State.Pressed_Out))

/-- The new state `nstate` computed by `LWButton::pressNotify`. -/
def pressState (s : State) (in_ : Bool) : State :=
  if pressTaken s in_ = true then State.Pressed_In
  else if in_ = false ∧ s = State.Pressed_In then State.Normal
  else s

/-- The handler `LWButton::pressNotify`. -/
def pressNotify (b : LWButton) (x y button _bstate : Int) : Handled :=
  if b.state = State.Invisible ∨ button > 2 then ⟨b, false, []⟩
  else
    let in_ := b.inside x y
    let nstate := pressState b.state in_
    let b1 : LWButton :=
      if pressTaken b.state in_ = true then
        { b with pressedButton := Int.lor b.pressedButton button }
      else b
    if b.state ≠ nstate then
      ⟨{ b1 with state := nstate }, true, notifyRedraw b⟩
    else ⟨b1, in_, []⟩

/-- The local `action` of `LWButton::releaseNotify`: whether the release counts
as a click. -/
def releaseAction (b : LWButton) (x y : Int) : Bool :=
  b.inside x y && (decide (b.state = State.Pressed_In) || decide (b.state = State.Pressed_Out))

/-- The click dispatch of `LWButton::releaseNotify`
(`if (pressedButton & Button3) ... else if ...`). -/
def dispatchClick (F : PressedFlags) (b : LWButton) : List Notification :=
  if Int.land b.pressedButton F.Button3 ≠ 0 then
    [Notification.button1Pressed b.actionCode b.actionData]
  else if Int.land b.pressedButton F.Button3 ≠ 0 then
    [Notification.button2Pressed b.actionCode b.actionData]
  else if Int.land b.pressedButton F.Button3 ≠ 0 then
    [Notification.button3Pressed b.actionCode b.actionData]
  else []

/-- The handler `LWButton::releaseNotify`. -/
def releaseNotify (F : PressedFlags) (b : LWButton) (x y button _bstate : Int) : Handled :=
  if b.state = State.Invisible ∨ button > 2 then ⟨b, false, []⟩
  else
    let action := releaseAction b x y
    let nstate : State := if action then State.Over else State.Normal
    let changed : Bool := decide (b.state ≠ nstate)
    let ev1 : List Notification := if changed then notifyRedraw b else []
    let ev2 : List Notification :=
      if action = true ∧ b.listener.isSome = true then dispatchClick F b else []
    ⟨{ b with state := nstate, pressedButton := Int.lor b.pressedButton (Int.lnot button) },
      action || changed, ev1 ++ ev2⟩

/-- The drawing routine `LWButton::redraw`: the calls made on the context.  The
button itself is not modified. -/
def redraw (b : LWButton) : List DrawCmd :=
  let head : List DrawCmd :=
    [DrawCmd.set_line_width 1, DrawCmd.set_antialias_subpixel,
     DrawCmd.rectangle ((b.xpos : Rat) + 1 / 2) ((b.ypos : Rat) + 1 / 2)
       ((b.w : Rat) - 1) ((b.h : Rat) - 1),
     if b.state = State.Pressed_In then DrawCmd.set_source_rgb b.fgr b.fgg b.fgb
     else DrawCmd.set_source_rgba b.bgr b.bgg b.bgb 0]
  if b.state = State.Invisible then head ++ [DrawCmd.fill]
  else
    let dilat : Int := if b.state = State.Pressed_In then 1 + 1 else 1
    head ++ [DrawCmd.fill_preserve,
      if b.state = State.Over then DrawCmd.set_source_rgb b.fgr b.fgg b.fgb
      else DrawCmd.set_source_rgba b.bgr b.bgg b.bgb 0,
      DrawCmd.stroke]
    ++ (match b.icon with
        | some s => [DrawCmd.set_source s (b.xpos + dilat) (b.ypos + dilat), DrawCmd.paint]
        | none => [])

/-- The accessor `LWButton::getAlignment`: the pair `(ha, va)`. -/
def getAlignment (b : LWButton) : Alignment × Alignment :=
  (b.halign, b.valign)

/-- The accessor `LWButton::getToolTip`. -/
def getToolTip (b : LWButton) (x y : Int) : String :=
  if b.inside x y then b.toolTip else ""

/-- The setter `LWButton::setToolTip`. -/
def setToolTip (b : LWButton) (tooltip : String) : LWButton :=
  { b with toolTip := tooltip }

/-- The operation `LWButton::show`. -/
def show_ (b : LWButton) : Shown :=
  if b.state = State.Invisible then
    ⟨{ b with state := State.Normal }, notifyRedraw b⟩
  else ⟨b, []⟩

/-- The operation `LWButton::hide`. -/
def hide (b : LWButton) : Shown :=
  if b.state ≠ State.Invisible then
    ⟨{ b with state := State.Invisible }, notifyRedraw b⟩
  else ⟨b, []⟩

/-- A press followed by a release at the same point with the same button code:
the final button, the value the release returns and every listener call of the
two handlers in call order. -/
def pressThenRelease (F : PressedFlags) (b : LWButton) (x y button : Int) : Handled :=
  let p := b.pressNotify x y button 0
  let r := p.button.releaseNotify F x y button 0
  ⟨r.button, r.ret, p.events ++ r.events⟩

/-- A press at `p`, a pointer motion to `q` and a release at `r`, all with the
same button code: the final button, the value the release returns and every
listener call of the three handlers in call order. -/
def pressMoveRelease (F : PressedFlags) (b : LWButton) (p q r : Int × Int) (button : Int) :
    Handled :=
  let s1 := b.pressNotify p.1 p.2 button 0
  let s2 := s1.button.motionNotify q.1 q.2 0
  let s3 := s2.button.releaseNotify F r.1 r.2 button 0
  ⟨s3.button, s3.ret, s1.events ++ s2.events ++ s3.events⟩

/-- Two calls of `show` in a row: the final button and every listener call. -/
def showTwice (b : LWButton) : Shown :=
  let r1 := b.show_
  let r2 := r1.button.show_
  ⟨r2.button, r1.events ++ r2.events⟩

end LWButton

/-- The size a button must report for an icon: the icon's dimensions plus the
border, or the bare border when there is no icon. -/
def sizeFor : Option ImageSurface → Int × Int
  | some s => (s.get_width + 2, s.get_height + 2)
  | none => (2, 2)

/-- An operation a client performs on a constructed button. -/
inductive Op where
  | setIcon (i : Option ImageSurface)
  | setPosition (x y : Int)
  | setColors (bg fg : Color)
  | motionNotify (x y bstate : Int)
  | pressNotify (x y button bstate : Int)
  | releaseNotify (x y button bstate : Int)
  | show_
  | hide
  | setToolTip (tooltip : String)
  | redraw
  deriving DecidableEq, Repr

/-- The button after one operation. -/
def Op.apply (F : PressedFlags) (b : LWButton) : Op → LWButton
  | .setIcon i => b.setIcon i
  | .setPosition x y => b.setPosition x y
  | .setColors bg fg => b.setColors bg fg
  | .motionNotify x y bstate => (b.motionNotify x y bstate).button
  | .pressNotify x y button bstate => (b.pressNotify x y button bstate).button
  | .releaseNotify x y button bstate => (b.releaseNotify F x y button bstate).button
  | .show_ => b.show_.button
  | .hide => b.hide.button
  | .setToolTip tooltip => b.setToolTip tooltip
  | .redraw => b

/-- The button after a sequence of operations, performed left to right. -/
def runOps (F : PressedFlags) (b : LWButton) (ops : List Op) : LWButton :=
  ops.foldl (Op.apply F) b

/-- Some content of uninitialised memory for a button under construction. -/
def rawMemory : LWButton :=
  { xpos := 0, ypos := 0, w := 0, h := 0, halign := ⟨0⟩, valign := ⟨0⟩,
    icon := none, bgr := 0, bgg := 0, bgb := 0, fgr := 0, fgg := 0, fgb := 0,
    state := State.Invisible, pressedButton := 0, listener := none, actionCode := 0,
    actionData := 0, toolTip := "" }

/-- A sample button: built with a 20x20 icon, placed at (10,10), with a listener
attached; it is in state `Normal` with an empty pressed mask. -/
def sampleButton : LWButton :=
  { (LWButton.new stdFlags rawMemory (some ⟨20, 20⟩) 7 0 ⟨0⟩ ⟨1⟩ "tip").setPosition 10 10 with listener := some 1 }

/-- The sample button after a press inside and a pointer motion to the outside:
it is in state `Pressed_Out`. -/
def samplePressedOut : LWButton :=
  ((sampleButton.pressNotify 15 15 1 0).button.motionNotify 100 100 0).button

/-- The sample button moved to the far right of the coordinate range, where
`xpos + w` exceeds `INT_MAX`. -/
def sampleFarRight : LWButton :=
  sampleButton.setPosition 2147483640 10

/-- The sample button after a pointer motion to the inside: it is in state
`Over`. -/
def sampleOver : LWButton :=
  (sampleButton.motionNotify 15 15 0).button

/-- The number of `redrawNeeded` calls among the listener calls. -/
def redrawCount (l : List Notification) : Nat :=
  l.count Notification.redrawNeeded

end Rtgui

namespace Rtgui

open LWButton

/-! ## Basic facts about containment and the handlers -/

/-- A sum inside the `int` range is not wrapped. -/
theorem wrapInt_of_range (n : Int) (hlo : INT_MIN ≤ n) (hhi : n ≤ INT_MAX) : wrapInt n = n := by
  unfold INT_MIN at hlo
  unfold INT_MAX at hhi
  unfold wrapInt
  omega

/-- A wrapped sum lies inside the `int` range. -/
theorem wrapInt_range (n : Int) : INT_MIN ≤ wrapInt n ∧ wrapInt n ≤ INT_MAX := by
  unfold INT_MIN INT_MAX wrapInt
  omega

/-- The containment test read as a proposition. -/
theorem inside_iff (b : LWButton) (x y : Int) :
    b.inside x y = true ↔
      b.state ≠ State.Invisible ∧ b.xpos < x ∧ x < wrapInt (b.xpos + b.w) ∧
        b.ypos < y ∧ y < wrapInt (b.ypos + b.h) := by
  unfold LWButton.inside
  by_cases hs : b.state = State.Invisible
  · simp [hs]
  · simp [hs, and_assoc]

/-- Containment looks only at the geometry and at whether the button is invisible. -/
theorem inside_congr (b c : LWButton) (x y : Int) (hx : c.xpos = b.xpos) (hy : c.ypos = b.ypos)
    (hw : c.w = b.w) (hh : c.h = b.h)
    (hs : c.state = State.Invisible ↔ b.state = State.Invisible) :
    c.inside x y = b.inside x y := by
  unfold LWButton.inside
  by_cases h : b.state = State.Invisible
  · simp [h, hs.mpr h]
  · have h2 : ¬ c.state = State.Invisible := fun hc => h (hs.mp hc)
    simp [h, h2, hx, hy, hw, hh]

/-- The empty mask has no bit in common with any flag. -/
theorem land_zero_left (n : Int) : Int.land 0 n = 0 := by
  cases n <;> simp [Int.land, Nat.ldiff, Nat.bitwise_zero_left]

/-- A redraw request is not a click. -/
theorem clicks_notifyRedraw (b : LWButton) : clicks (b.notifyRedraw) = [] := by
  unfold LWButton.notifyRedraw clicks
  split <;> simp [Notification.isClick]

/-- The button with its state field overwritten by its own state is itself. -/
theorem with_state_self (b : LWButton) : { b with state := b.state } = b := by
  cases b
  rfl

/-- The motion handler on a visible button, in closed form. -/
theorem motionNotify_visible (b : LWButton) (x y bstate : Int)
    (hvis : b.state ≠ State.Invisible) :
    b.motionNotify x y bstate =
      ⟨{ b with state := motionState b.state (b.inside x y) },
        decide (b.state ≠ motionState b.state (b.inside x y)) || b.inside x y,
        if b.state ≠ motionState b.state (b.inside x y) then b.notifyRedraw else []⟩ := by
  unfold LWButton.motionNotify
  by_cases hc : b.state = motionState b.state (b.inside x y)
  · simp only [hvis, if_false, ne_eq, hc.symm, not_true_eq_false, decide_False, Bool.false_or,
      with_state_self]
  · simp [hvis, hc]

/-- The press handler on a visible button with an accepted button code, in
closed form. -/
theorem pressNotify_visible (b : LWButton) (x y button bstate : Int)
    (hvis : b.state ≠ State.Invisible) (hb : button ≤ 2) :
    b.pressNotify x y button bstate =
      ⟨{ b with
          state := pressState b.state (b.inside x y),
          pressedButton :=
            if pressTaken b.state (b.inside x y) = true then Int.lor b.pressedButton button
            else b.pressedButton },
        decide (b.state ≠ pressState b.state (b.inside x y)) || b.inside x y,
        if b.state ≠ pressState b.state (b.inside x y) then b.notifyRedraw else []⟩ := by
  have hb2 : ¬ button > 2 := not_lt.mpr hb
  unfold LWButton.pressNotify
  by_cases hc : b.state = pressState b.state (b.inside x y)
  · by_cases ht : pressTaken b.state (b.inside x y) = true
    · exfalso
      have h1 : pressState b.state (b.inside x y) = State.Pressed_In := by
        simp [pressState, ht]
      have h2 : b.state ≠ State.Pressed_In := by
        intro h3
        simp [pressTaken, h3] at ht
      exact h2 (hc.trans h1)
    · simp only [hvis, hb2, or_self, if_false, ht, ne_eq, hc.symm, not_true_eq_false,
        decide_False, Bool.false_or]
      cases b
      simp
  · by_cases ht : pressTaken b.state (b.inside x y) = true <;> simp [hvis, hb2, hc, ht]

/-- The release handler on a visible button with an accepted button code, in
closed form. -/
theorem releaseNotify_visible (F : PressedFlags) (b : LWButton) (x y button bstate : Int)
    (hvis : b.state ≠ State.Invisible) (hb : button ≤ 2) :
    b.releaseNotify F x y button bstate =
      ⟨{ b with
          state := if b.releaseAction x y = true then State.Over else State.Normal,
          pressedButton := Int.lor b.pressedButton (Int.lnot button) },
        b.releaseAction x y ||
          decide (b.state ≠ if b.releaseAction x y = true then State.Over else State.Normal),
        (if b.state ≠ (if b.releaseAction x y = true then State.Over else State.Normal) then
            b.notifyRedraw else []) ++
          (if b.releaseAction x y = true ∧ b.listener.isSome = true then b.dispatchClick F
            else [])⟩ := by
  have hb2 : ¬ button > 2 := not_lt.mpr hb
  unfold LWButton.releaseNotify
  simp [hvis, hb2]

/-- Pointer motion never makes a visible button invisible. -/
theorem motionState_visible (s : State) (i : Bool) (h : s ≠ State.Invisible) :
    motionState s i ≠ State.Invisible := by
  cases s <;> cases i <;> simp [motionState] at h ⊢

/-- A press never makes a visible button invisible. -/
theorem pressState_visible (s : State) (i : Bool) (h : s ≠ State.Invisible) :
    pressState s i ≠ State.Invisible := by
  cases s <;> cases i <;> simp [pressState, pressTaken] at h ⊢

/-- The motion handler does not change which points are inside. -/
theorem inside_motionNotify (b : LWButton) (x y bstate u v : Int) :
    (b.motionNotify x y bstate).button.inside u v = b.inside u v := by
  by_cases hvis : b.state = State.Invisible
  · simp [LWButton.motionNotify, hvis]
  · rw [motionNotify_visible b x y bstate hvis]
    refine inside_congr b _ u v rfl rfl rfl rfl ?_
    exact ⟨fun h => absurd h (motionState_visible _ _ hvis), fun h => absurd h hvis⟩

/-- The press handler does not change which points are inside. -/
theorem inside_pressNotify (b : LWButton) (x y button bstate u v : Int) :
    (b.pressNotify x y button bstate).button.inside u v = b.inside u v := by
  by_cases hg : b.state = State.Invisible ∨ button > 2
  · simp [LWButton.pressNotify, hg]
  · have hvis : b.state ≠ State.Invisible := fun h => hg (Or.inl h)
    have hb : button ≤ 2 := not_lt.mp (fun h => hg (Or.inr h))
    rw [pressNotify_visible b x y button bstate hvis hb]
    refine inside_congr b _ u v rfl rfl rfl rfl ?_
    exact ⟨fun h => absurd h (pressState_visible _ _ hvis), fun h => absurd h hvis⟩

/-- The motion handler invokes no click callback. -/
theorem clicks_motionNotify (b : LWButton) (x y bstate : Int) :
    clicks (b.motionNotify x y bstate).events = [] := by
  unfold LWButton.motionNotify
  split
  · rfl
  · dsimp only
    split
    · exact clicks_notifyRedraw b
    · rfl

/-- The press handler invokes no click callback. -/
theorem clicks_pressNotify (b : LWButton) (x y button bstate : Int) :
    clicks (b.pressNotify x y button bstate).events = [] := by
  unfold LWButton.pressNotify
  split
  · rfl
  · dsimp only
    split
    · exact clicks_notifyRedraw b
    · rfl

/-- A release that is not a click invokes no click callback. -/
theorem clicks_releaseNotify_of_not_action (F : PressedFlags) (b : LWButton)
    (x y button bstate : Int) (h : b.releaseAction x y = false) :
    clicks (b.releaseNotify F x y button bstate).events = [] := by
  unfold LWButton.releaseNotify
  split
  · rfl
  · simp only [h, Bool.false_eq_true, false_and, if_false, List.append_nil]
    split
    · exact clicks_notifyRedraw b
    · rfl

/-- The click callbacks of a concatenation. -/
theorem clicks_append (l m : List Notification) : clicks (l ++ m) = clicks l ++ clicks m := by
  simp [clicks]

/-! ## C1: press and release inside -/

/-- C1 (the code departs from the claim): on the sample button, which is visible,
has a listener and an empty pressed mask, the point (15,15) is inside and the
press with button code 1 records that button in the mask; yet the press followed
by the release at (15,15) with code 1 invokes no click callback at all (the
dispatch only ever tests the `Button3` flag), where the claim promises exactly
one, `button1Pressed`.  With an empty mask and button code 0 no click callback
is invoked whatever the values of the flags are. -/
theorem C1_press_release_inside_invokes_no_click :
    sampleButton.state = State.Normal ∧ sampleButton.listener.isSome = true ∧
    sampleButton.inside 15 15 = true ∧
    (sampleButton.pressNotify 15 15 1 0).button.pressedButton = 1 ∧
    (sampleButton.pressThenRelease stdFlags 15 15 1).events =
      [Notification.redrawNeeded, Notification.redrawNeeded] ∧
    clicks (sampleButton.pressThenRelease stdFlags 15 15 1).events = [] ∧
    ∀ F : PressedFlags, clicks (sampleButton.pressThenRelease F 15 15 0).events = [] := by
  refine ⟨by decide, by decide, by decide, by decide, by decide, by decide, ?_⟩
  intro F
  simp [LWButton.pressThenRelease, LWButton.pressNotify, LWButton.releaseNotify,
    LWButton.releaseAction, LWButton.dispatchClick, LWButton.inside, wrapInt,
    LWButton.notifyRedraw,
    LWButton.pressState, LWButton.pressTaken, sampleButton, LWButton.setPosition, LWButton.new, rawMemory, stdFlags, clicks,
    Notification.isClick, Int.lor, land_zero_left]

/-! ## C2: the 20x20 scenario -/

/-- C2 (counterexample): for the sample button (icon 20x20 at (10,10)) the point
(31,31) is inside, so the scenario as claimed does not hold. -/
theorem C2_scenario_as_claimed_fails :
    sampleButton.state ≠ State.Invisible ∧ sampleButton.icon = some ⟨20, 20⟩ ∧
    sampleButton.getPosition = (10, 10) ∧ sampleButton.inside 31 31 = true ∧
    ¬ (sampleButton.getSize = (22, 22) ∧ sampleButton.inside 31 31 = false ∧
        sampleButton.inside 30 30 = true) := by
  decide

/-- C2 (amended): for a visible button whose icon is set to a 20x20 surface and
whose position is set to (10,10), `getSize` reports w = h = 22, the points
(30,30) and (31,31) are inside, and (32,32) is outside: the exclusive bound is
xpos + w = 32. -/
theorem C2_scenario_bounds (b : LWButton) (i : ImageSurface)
    (hvis : b.state ≠ State.Invisible) (hw : i.get_width = 20) (hh : i.get_height = 20) :
    ((b.setIcon (some i)).setPosition 10 10).getSize = (22, 22) ∧
    ((b.setIcon (some i)).setPosition 10 10).inside 30 30 = true ∧
    ((b.setIcon (some i)).setPosition 10 10).inside 31 31 = true ∧
    ((b.setIcon (some i)).setPosition 10 10).inside 32 32 = false := by
  simp [LWButton.setIcon, LWButton.setPosition, LWButton.getSize, LWButton.inside, wrapInt, hvis,
    hw, hh]

/-- C2 (amended), at the sample button with its icon set again. -/
theorem C2_scenario_bounds_witness :
    ((sampleButton.setIcon (some ⟨20, 20⟩)).setPosition 10 10).getSize = (22, 22) ∧
    ((sampleButton.setIcon (some ⟨20, 20⟩)).setPosition 10 10).inside 30 30 = true ∧
    ((sampleButton.setIcon (some ⟨20, 20⟩)).setPosition 10 10).inside 31 31 = true ∧
    ((sampleButton.setIcon (some ⟨20, 20⟩)).setPosition 10 10).inside 32 32 = false :=
  C2_scenario_bounds sampleButton ⟨20, 20⟩ (by decide) rfl rfl

/-! ## C3: press inside, leave, release outside -/

/-- C3: for a visible button, an accepted button code, a point `p` inside and
points `q`, `r` outside, press at `p`, motion to `q` and release at `r` end in
state `Normal` and invoke no click callback. -/
theorem C3_press_leave_release_no_click (F : PressedFlags) (b : LWButton) (p q r : Int × Int)
    (button : Int) (hvis : b.state ≠ State.Invisible) (hb : button ≤ 2)
    (hp : b.inside p.1 p.2 = true) (hq : b.inside q.1 q.2 = false)
    (hr : b.inside r.1 r.2 = false) :
    (b.pressMoveRelease F p q r button).button.state = State.Normal ∧
    clicks (b.pressMoveRelease F p q r button).events = [] := by
  have hs1 : (b.pressNotify p.1 p.2 button 0).button.state = State.Pressed_In := by
    rw [pressNotify_visible b p.1 p.2 button 0 hvis hb, hp]
    cases hst : b.state <;> simp_all [pressState, pressTaken]
  have hq1 : (b.pressNotify p.1 p.2 button 0).button.inside q.1 q.2 = false := by
    rw [inside_pressNotify]
    exact hq
  have hs2 : ((b.pressNotify p.1 p.2 button 0).button.motionNotify q.1 q.2 0).button.state
      = State.Pressed_Out := by
    rw [motionNotify_visible _ q.1 q.2 0 (by rw [hs1]; decide), hq1, hs1]
    rfl
  have hr2 : ((b.pressNotify p.1 p.2 button 0).button.motionNotify q.1 q.2 0).button.inside
      r.1 r.2 = false := by
    rw [inside_motionNotify, inside_pressNotify]
    exact hr
  have ha3 : ((b.pressNotify p.1 p.2 button 0).button.motionNotify q.1 q.2
      0).button.releaseAction r.1 r.2 = false := by
    simp [LWButton.releaseAction, hr2]
  constructor
  · show (((b.pressNotify p.1 p.2 button 0).button.motionNotify q.1 q.2 0).button.releaseNotify
      F r.1 r.2 button 0).button.state = State.Normal
    rw [releaseNotify_visible F _ r.1 r.2 button 0 (by rw [hs2]; decide) hb, ha3]
    rfl
  · show clicks ((b.pressNotify p.1 p.2 button 0).events ++
      ((b.pressNotify p.1 p.2 button 0).button.motionNotify q.1 q.2 0).events ++
      (((b.pressNotify p.1 p.2 button 0).button.motionNotify q.1 q.2 0).button.releaseNotify
        F r.1 r.2 button 0).events) = []
    rw [clicks_append, clicks_append, clicks_pressNotify, clicks_motionNotify,
      clicks_releaseNotify_of_not_action F _ r.1 r.2 button 0 ha3]
    rfl

/-- C3, at the sample button: press at (15,15), leave to (100,100), release at
(200,200), button code 1. -/
theorem C3_press_leave_release_no_click_witness :
    (sampleButton.pressMoveRelease stdFlags (15, 15) (100, 100) (200, 200) 1).button.state
      = State.Normal ∧
    clicks (sampleButton.pressMoveRelease stdFlags (15, 15) (100, 100) (200, 200) 1).events
      = [] :=
  C3_press_leave_release_no_click stdFlags sampleButton (15, 15) (100, 100) (200, 200) 1
    (by decide) (by decide) (by decide) (by decide) (by decide)

/-! ## C4: containment -/

/-- C4 (counterexample): the sample button moved to xpos = 2147483640 is visible
and 22 wide, so the point (2147483645, 15) satisfies xpos < x < xpos+w and
ypos < y < ypos+h; yet `inside` returns false there, because the `int` sum
xpos + w wraps around to -2147483634. -/
theorem C4_inside_false_where_int_sum_overflows :
    sampleFarRight.state ≠ State.Invisible ∧
    sampleFarRight.getPosition = (2147483640, 10) ∧
    sampleFarRight.getSize = (22, 22) ∧
    wrapInt (sampleFarRight.xpos + sampleFarRight.w) = -2147483634 ∧
    sampleFarRight.inside 2147483645 15 = false ∧
    ¬ (sampleFarRight.inside 2147483645 15 = true ↔
        sampleFarRight.state ≠ State.Invisible ∧
        sampleFarRight.xpos < 2147483645 ∧
        2147483645 < sampleFarRight.xpos + sampleFarRight.w ∧
        sampleFarRight.ypos < 15 ∧ 15 < sampleFarRight.ypos + sampleFarRight.h) := by
  decide

/-- C4 (amended): for every button whose sums xpos+w and ypos+h lie in the `int`
range, `inside` is the point-in-rectangle test with exclusive bounds: it is true
exactly when the state is not `Invisible` and xpos < x < xpos+w and
ypos < y < ypos+h, so it is false at every point outside the closed rectangle;
and for every button whatsoever it is false at every point when the state is
`Invisible`. -/
theorem C4_inside_exclusive_rectangle (b : LWButton) (x y : Int) :
    (INT_MIN ≤ b.xpos + b.w ∧ b.xpos + b.w ≤ INT_MAX →
      INT_MIN ≤ b.ypos + b.h ∧ b.ypos + b.h ≤ INT_MAX →
      (b.inside x y = true ↔
        b.state ≠ State.Invisible ∧ b.xpos < x ∧ x < b.xpos + b.w ∧
          b.ypos < y ∧ y < b.ypos + b.h) ∧
      (¬ (b.xpos ≤ x ∧ x ≤ b.xpos + b.w ∧ b.ypos ≤ y ∧ y ≤ b.ypos + b.h) →
        b.inside x y = false)) ∧
    (b.state = State.Invisible → b.inside x y = false) := by
  constructor
  · intro hx hy
    have hiff : b.inside x y = true ↔
        b.state ≠ State.Invisible ∧ b.xpos < x ∧ x < b.xpos + b.w ∧
          b.ypos < y ∧ y < b.ypos + b.h := by
      have h := inside_iff b x y
      rw [wrapInt_of_range _ hx.1 hx.2, wrapInt_of_range _ hy.1 hy.2] at h
      exact h
    refine ⟨hiff, ?_⟩
    intro hout
    cases hin : b.inside x y with
    | false => rfl
    | true =>
      obtain ⟨_, h1, h2, h3, h4⟩ := hiff.mp hin
      exact absurd ⟨le_of_lt h1, le_of_lt h2, le_of_lt h3, le_of_lt h4⟩ hout
  · intro hinv
    simp [LWButton.inside, hinv]

/-- C4 (amended), at the sample button (xpos + w = ypos + h = 32) and the point
(15,15). -/
theorem C4_inside_exclusive_rectangle_witness :
    (sampleButton.inside 15 15 = true ↔
      sampleButton.state ≠ State.Invisible ∧ sampleButton.xpos < 15 ∧
        15 < sampleButton.xpos + sampleButton.w ∧
        sampleButton.ypos < 15 ∧ 15 < sampleButton.ypos + sampleButton.h) ∧
    (¬ (sampleButton.xpos ≤ 15 ∧ 15 ≤ sampleButton.xpos + sampleButton.w ∧
        sampleButton.ypos ≤ 15 ∧ 15 ≤ sampleButton.ypos + sampleButton.h) →
      sampleButton.inside 15 15 = false) :=
  (C4_inside_exclusive_rectangle sampleButton 15 15).1 (by decide) (by decide)

/-! ## C5: showing twice -/

/-- C5: with a listener set, `show` followed by `show` emits at most one
`redrawNeeded` in total; the second call emits nothing and changes nothing; and
exactly one notification is emitted when the button started `Invisible`. -/
theorem C5_show_twice_single_redraw (b : LWButton) (hl : b.listener.isSome = true) :
    b.showTwice.events.count Notification.redrawNeeded ≤ 1 ∧
    b.show_.button.show_.events = [] ∧
    b.show_.button.show_.button = b.show_.button ∧
    (b.state = State.Invisible → b.showTwice.events = [Notification.redrawNeeded]) := by
  by_cases hs : b.state = State.Invisible
  · simp [LWButton.showTwice, LWButton.show_, LWButton.notifyRedraw, hs, hl]
  · simp [LWButton.showTwice, LWButton.show_, hs]

/-- C5, at the sample button made invisible: the two calls emit exactly one
notification. -/
theorem C5_show_twice_single_redraw_witness :
    sampleButton.hide.button.showTwice.events.count Notification.redrawNeeded ≤ 1 ∧
    sampleButton.hide.button.show_.button.show_.events = [] ∧
    sampleButton.hide.button.show_.button.show_.button = sampleButton.hide.button.show_.button ∧
    (sampleButton.hide.button.state = State.Invisible →
      sampleButton.hide.button.showTwice.events = [Notification.redrawNeeded]) :=
  C5_show_twice_single_redraw sampleButton.hide.button (by decide)

/-! ## C6: out-of-range button codes -/

/-- C6: for every button, every point and every button code greater than 2,
`pressNotify` and `releaseNotify` return false, leave every field of the button
unchanged and call nothing on the listener. -/
theorem C6_out_of_range_button_ignored (F : PressedFlags) (b : LWButton)
    (x y button bstate : Int) (h : 2 < button) :
    b.pressNotify x y button bstate = ⟨b, false, []⟩ ∧
    b.releaseNotify F x y button bstate = ⟨b, false, []⟩ := by
  have hg : button > 2 := h
  simp [LWButton.pressNotify, LWButton.releaseNotify, hg]

/-- C6, at the sample button at (15,15) with button code 3. -/
theorem C6_out_of_range_button_ignored_witness :
    sampleButton.pressNotify 15 15 3 0 = ⟨sampleButton, false, []⟩ ∧
    sampleButton.releaseNotify stdFlags 15 15 3 0 = ⟨sampleButton, false, []⟩ :=
  C6_out_of_range_button_ignored stdFlags sampleButton 15 15 3 0 (by decide)

/-! ## C7: the invisible state -/

/-- C7: `hide` results in `Invisible` from every state; on an invisible button
`motionNotify`, `pressNotify`, `releaseNotify` and `hide` change nothing, return
false (the handlers) and call nothing on the listener, and no operation other
than `show` changes the state; `show` on an invisible button results in
`Normal`, and on any other button leaves the state as it is. -/
theorem C7_invisible_entered_by_hide_left_by_show (F : PressedFlags) (b : LWButton)
    (x y button bstate : Int) :
    b.hide.button.state = State.Invisible ∧
    (b.state = State.Invisible →
      b.motionNotify x y bstate = ⟨b, false, []⟩ ∧
      b.pressNotify x y button bstate = ⟨b, false, []⟩ ∧
      b.releaseNotify F x y button bstate = ⟨b, false, []⟩ ∧
      b.hide = ⟨b, []⟩ ∧
      ∀ op : Op, op ≠ Op.show_ → (op.apply F b).state = State.Invisible) ∧
    (b.state = State.Invisible → b.show_.button.state = State.Normal) ∧
    (b.state ≠ State.Invisible → b.show_.button.state = b.state) := by
  refine ⟨?_, ?_, ?_, ?_⟩
  · by_cases hs : b.state = State.Invisible <;> simp [LWButton.hide, hs]
  · intro hs
    refine ⟨by simp [LWButton.motionNotify, hs], by simp [LWButton.pressNotify, hs],
      by simp [LWButton.releaseNotify, hs], by simp [LWButton.hide, hs], ?_⟩
    intro op hop
    cases op with
    | setIcon i => cases i <;> simpa [Op.apply, LWButton.setIcon] using hs
    | setPosition x y => simpa [Op.apply, LWButton.setPosition] using hs
    | setColors bg fg => simpa [Op.apply, LWButton.setColors] using hs
    | motionNotify x y bstate => simp [Op.apply, LWButton.motionNotify, hs]
    | pressNotify x y button bstate => simp [Op.apply, LWButton.pressNotify, hs]
    | releaseNotify x y button bstate => simp [Op.apply, LWButton.releaseNotify, hs]
    | show_ => exact absurd rfl hop
    | hide => simp [Op.apply, LWButton.hide, hs]
    | setToolTip t => simpa [Op.apply, LWButton.setToolTip] using hs
    | redraw => simpa [Op.apply] using hs
  · intro hs
    simp [LWButton.show_, hs]
  · intro hs
    simp [LWButton.show_, hs]

/-! ## C8: the size invariant -/

/-- The motion handler keeps the size and the icon. -/
theorem size_motionNotify (b : LWButton) (x y bstate : Int) :
    (b.motionNotify x y bstate).button.getSize = b.getSize ∧
    (b.motionNotify x y bstate).button.getIcon = b.getIcon := by
  by_cases hvis : b.state = State.Invisible
  · simp [LWButton.motionNotify, hvis]
  · rw [motionNotify_visible b x y bstate hvis]
    exact ⟨rfl, rfl⟩

/-- The press handler keeps the size and the icon. -/
theorem size_pressNotify (b : LWButton) (x y button bstate : Int) :
    (b.pressNotify x y button bstate).button.getSize = b.getSize ∧
    (b.pressNotify x y button bstate).button.getIcon = b.getIcon := by
  by_cases hg : b.state = State.Invisible ∨ button > 2
  · simp [LWButton.pressNotify, hg]
  · have hvis : b.state ≠ State.Invisible := fun h => hg (Or.inl h)
    have hb : button ≤ 2 := not_lt.mp (fun h => hg (Or.inr h))
    rw [pressNotify_visible b x y button bstate hvis hb]
    exact ⟨rfl, rfl⟩

/-- The release handler keeps the size and the icon. -/
theorem size_releaseNotify (F : PressedFlags) (b : LWButton) (x y button bstate : Int) :
    (b.releaseNotify F x y button bstate).button.getSize = b.getSize ∧
    (b.releaseNotify F x y button bstate).button.getIcon = b.getIcon := by
  by_cases hg : b.state = State.Invisible ∨ button > 2
  · simp [LWButton.releaseNotify, hg]
  · have hvis : b.state ≠ State.Invisible := fun h => hg (Or.inl h)
    have hb : button ≤ 2 := not_lt.mp (fun h => hg (Or.inr h))
    rw [releaseNotify_visible F b x y button bstate hvis hb]
    exact ⟨rfl, rfl⟩

/-- The constructor establishes the size invariant. -/
theorem size_new (F : PressedFlags) (raw : LWButton) (i : Option ImageSurface) (aCode : Int)
    (aData : Nat) (ha va : Alignment) (tooltip : String) :
    (LWButton.new F raw i aCode aData ha va tooltip).getSize =
      sizeFor (LWButton.new F raw i aCode aData ha va tooltip).getIcon := by
  cases i <;> rfl

/-- Every operation preserves the size invariant. -/
theorem size_apply (F : PressedFlags) (b : LWButton) (op : Op)
    (h : b.getSize = sizeFor b.getIcon) :
    (op.apply F b).getSize = sizeFor (op.apply F b).getIcon := by
  cases op with
  | setIcon i => cases i <;> rfl
  | setPosition x y => exact h
  | setColors bg fg => exact h
  | motionNotify x y bstate =>
    show (b.motionNotify x y bstate).button.getSize = sizeFor (b.motionNotify x y bstate).button.getIcon
    rw [(size_motionNotify b x y bstate).1, (size_motionNotify b x y bstate).2]
    exact h
  | pressNotify x y button bstate =>
    show (b.pressNotify x y button bstate).button.getSize
      = sizeFor (b.pressNotify x y button bstate).button.getIcon
    rw [(size_pressNotify b x y button bstate).1, (size_pressNotify b x y button bstate).2]
    exact h
  | releaseNotify x y button bstate =>
    show (b.releaseNotify F x y button bstate).button.getSize
      = sizeFor (b.releaseNotify F x y button bstate).button.getIcon
    rw [(size_releaseNotify F b x y button bstate).1, (size_releaseNotify F b x y button bstate).2]
    exact h
  | show_ =>
    show b.show_.button.getSize = sizeFor b.show_.button.getIcon
    unfold LWButton.show_
    split
    · exact h
    · exact h
  | hide =>
    show b.hide.button.getSize = sizeFor b.hide.button.getIcon
    unfold LWButton.hide
    split
    · exact h
    · exact h
  | setToolTip t => exact h
  | redraw => exact h

/-- The size invariant holds after any sequence of operations on a button that
satisfies it. -/
theorem size_runOps (F : PressedFlags) (ops : List Op) :
    ∀ b : LWButton, b.getSize = sizeFor b.getIcon →
      (runOps F b ops).getSize = sizeFor (runOps F b ops).getIcon := by
  induction ops with
  | nil => intro b h; exact h
  | cons op rest ih =>
    intro b h
    exact ih (op.apply F b) (size_apply F b op h)

/-- C8: after construction and after every sequence of operations (`setIcon`,
`setPosition`, `setColors`, `motionNotify`, `pressNotify`, `releaseNotify`,
`show`, `hide`, `setToolTip`, `redraw`) the size reported by `getSize` is
(icon width + 2, icon height + 2) for the current icon, or (2,2) when there is
no icon. -/
theorem C8_size_invariant (F : PressedFlags) (raw : LWButton) (i : Option ImageSurface)
    (aCode : Int) (aData : Nat) (ha va : Alignment) (tooltip : String) (ops : List Op) :
    (runOps F (LWButton.new F raw i aCode aData ha va tooltip) ops).getSize =
      sizeFor (runOps F (LWButton.new F raw i aCode aData ha va tooltip) ops).getIcon :=
  size_runOps F ops _ (size_new F raw i aCode aData ha va tooltip)

/-! ## C9: the release transition -/

/-- C9 (counterexample): the sample button brought to `Pressed_Out` is visible,
and a release of the accepted button code 1 at the outside point (100,100)
leaves it in `Normal`, not in `Over`, and signals no click, although the state
before the release was `Pressed_Out`. -/
theorem C9_release_outside_from_pressed_out_goes_normal :
    samplePressedOut.state = State.Pressed_Out ∧
    samplePressedOut.inside 100 100 = false ∧
    (samplePressedOut.releaseNotify stdFlags 100 100 1 0).button.state = State.Normal ∧
    samplePressedOut.releaseAction 100 100 = false ∧
    ¬ ((samplePressedOut.state = State.Pressed_In ∨ samplePressedOut.state = State.Pressed_Out) →
        (samplePressedOut.releaseNotify stdFlags 100 100 1 0).button.state = State.Over) := by
  decide

/-- C9 (amended): for a visible button and an accepted button code, if the point
is inside and the state before `releaseNotify` is `Pressed_In` or `Pressed_Out`,
the state after is `Over`, the release counts as a click (the action flag is
set) and the handler returns true; in every other case the state after is
`Normal`, the action flag is not set and no click callback is invoked. -/
theorem C9_release_transition (F : PressedFlags) (b : LWButton) (x y button bstate : Int)
    (hvis : b.state ≠ State.Invisible) (hb : button ≤ 2) :
    ((b.inside x y = true ∧ (b.state = State.Pressed_In ∨ b.state = State.Pressed_Out)) →
      (b.releaseNotify F x y button bstate).button.state = State.Over ∧
      b.releaseAction x y = true ∧
      (b.releaseNotify F x y button bstate).ret = true) ∧
    (¬ (b.inside x y = true ∧ (b.state = State.Pressed_In ∨ b.state = State.Pressed_Out)) →
      (b.releaseNotify F x y button bstate).button.state = State.Normal ∧
      b.releaseAction x y = false ∧
      clicks (b.releaseNotify F x y button bstate).events = []) := by
  have hact : b.releaseAction x y = true ↔
      (b.inside x y = true ∧ (b.state = State.Pressed_In ∨ b.state = State.Pressed_Out)) := by
    simp [LWButton.releaseAction]
  constructor
  · intro hc
    have ha : b.releaseAction x y = true := hact.mpr hc
    rw [releaseNotify_visible F b x y button bstate hvis hb]
    simp [ha]
  · intro hc
    have ha : b.releaseAction x y = false := by
      cases h : b.releaseAction x y with
      | false => rfl
      | true => exact absurd (hact.mp h) hc
    refine ⟨?_, ha, clicks_releaseNotify_of_not_action F b x y button bstate ha⟩
    rw [releaseNotify_visible F b x y button bstate hvis hb]
    simp [ha]

/-- C9 (amended), at the sample button in state `Pressed_Out`, released inside at
(15,15) with button code 1. -/
theorem C9_release_transition_witness :
    ((samplePressedOut.inside 15 15 = true ∧
        (samplePressedOut.state = State.Pressed_In ∨ samplePressedOut.state = State.Pressed_Out)) →
      (samplePressedOut.releaseNotify stdFlags 15 15 1 0).button.state = State.Over ∧
      samplePressedOut.releaseAction 15 15 = true ∧
      (samplePressedOut.releaseNotify stdFlags 15 15 1 0).ret = true) ∧
    (¬ (samplePressedOut.inside 15 15 = true ∧
        (samplePressedOut.state = State.Pressed_In ∨ samplePressedOut.state = State.Pressed_Out)) →
      (samplePressedOut.releaseNotify stdFlags 15 15 1 0).button.state = State.Normal ∧
      samplePressedOut.releaseAction 15 15 = false ∧
      clicks (samplePressedOut.releaseNotify stdFlags 15 15 1 0).events = []) :=
  C9_release_transition stdFlags samplePressedOut 15 15 1 0 (by decide) (by decide)

/-! ## C10: the motion transitions -/

/-- C10: for a visible button, `motionNotify` takes `Normal` to `Over` and
`Pressed_Out` to `Pressed_In` when the point is inside, `Over` to `Normal` and
`Pressed_In` to `Pressed_Out` when it is outside, and leaves the state unchanged
in every other case; it returns (state changed) or (point inside); it leaves the
pressed mask as it was and invokes no click callback. -/
theorem C10_motion_hover_transitions (b : LWButton) (x y bstate : Int)
    (hvis : b.state ≠ State.Invisible) :
    (b.inside x y = true → b.state = State.Normal →
      (b.motionNotify x y bstate).button.state = State.Over) ∧
    (b.inside x y = true → b.state = State.Pressed_Out →
      (b.motionNotify x y bstate).button.state = State.Pressed_In) ∧
    (b.inside x y = false → b.state = State.Over →
      (b.motionNotify x y bstate).button.state = State.Normal) ∧
    (b.inside x y = false → b.state = State.Pressed_In →
      (b.motionNotify x y bstate).button.state = State.Pressed_Out) ∧
    (¬ ((b.inside x y = true ∧ (b.state = State.Normal ∨ b.state = State.Pressed_Out)) ∨
        (b.inside x y = false ∧ (b.state = State.Over ∨ b.state = State.Pressed_In))) →
      (b.motionNotify x y bstate).button.state = b.state) ∧
    (b.motionNotify x y bstate).ret =
      (decide ((b.motionNotify x y bstate).button.state ≠ b.state) || b.inside x y) ∧
    (b.motionNotify x y bstate).button.pressedButton = b.pressedButton ∧
    clicks (b.motionNotify x y bstate).events = [] := by
  refine ⟨?_, ?_, ?_, ?_, ?_, ?_, ?_, clicks_motionNotify b x y bstate⟩ <;>
    rw [motionNotify_visible b x y bstate hvis]
  · intro hi hs
    simp [motionState, hi, hs]
  · intro hi hs
    simp [motionState, hi, hs]
  · intro hi hs
    simp [motionState, hi, hs]
  · intro hi hs
    simp [motionState, hi, hs]
  · intro hc
    cases hi : b.inside x y <;> cases hs : b.state <;> simp_all [motionState]
  · cases hi : b.inside x y <;> cases hs : b.state <;> simp [motionState]

/-- C10, at the sample button (state `Normal`) with the pointer moving inside to
(15,15). -/
theorem C10_motion_hover_transitions_witness :
    (sampleButton.motionNotify 15 15 0).button.state = State.Over ∧
    (sampleButton.motionNotify 15 15 0).ret = true ∧
    (sampleButton.motionNotify 15 15 0).button.pressedButton = sampleButton.pressedButton ∧
    clicks (sampleButton.motionNotify 15 15 0).events = [] :=
  have h := C10_motion_hover_transitions sampleButton 15 15 0 (by decide)
  ⟨h.1 (by decide) (by decide), by decide, h.2.2.2.2.2.2.1, h.2.2.2.2.2.2.2⟩

/-! ## C11: the press transitions -/

/-- C11: for a visible button and an accepted button code, `pressNotify`
(i) inside, from `Normal`, `Over` or `Pressed_Out`: goes to `Pressed_In` and the
mask becomes (old mask OR button); (ii) outside, from `Pressed_In`: goes to
`Normal` with the mask unchanged; (iii) otherwise leaves state and mask as they
were.  It returns (state changed) or (point inside) and invokes no click
callback. -/
theorem C11_press_transitions (b : LWButton) (x y button bstate : Int)
    (hvis : b.state ≠ State.Invisible) (hb : button ≤ 2) :
    (b.inside x y = true →
      (b.state = State.Normal ∨ b.state = State.Over ∨ b.state = State.Pressed_Out) →
      (b.pressNotify x y button bstate).button.state = State.Pressed_In ∧
      (b.pressNotify x y button bstate).button.pressedButton
        = Int.lor b.pressedButton button) ∧
    (b.inside x y = false → b.state = State.Pressed_In →
      (b.pressNotify x y button bstate).button.state = State.Normal ∧
      (b.pressNotify x y button bstate).button.pressedButton = b.pressedButton) ∧
    (¬ ((b.inside x y = true ∧
          (b.state = State.Normal ∨ b.state = State.Over ∨ b.state = State.Pressed_Out)) ∨
        (b.inside x y = false ∧ b.state = State.Pressed_In)) →
      (b.pressNotify x y button bstate).button.state = b.state ∧
      (b.pressNotify x y button bstate).button.pressedButton = b.pressedButton) ∧
    (b.pressNotify x y button bstate).ret =
      (decide ((b.pressNotify x y button bstate).button.state ≠ b.state) || b.inside x y) ∧
    clicks (b.pressNotify x y button bstate).events = [] := by
  refine ⟨?_, ?_, ?_, ?_, clicks_pressNotify b x y button bstate⟩ <;>
    rw [pressNotify_visible b x y button bstate hvis hb]
  · intro hi hs
    rcases hs with hs | hs | hs <;> simp [pressState, pressTaken, hi, hs]
  · intro hi hs
    simp [pressState, pressTaken, hi, hs]
  · intro hc
    cases hi : b.inside x y <;> cases hs : b.state <;> simp_all [pressState, pressTaken]
  · cases hi : b.inside x y <;> cases hs : b.state <;> simp [pressState, pressTaken]

/-- C11, at the sample button (state `Normal`, empty mask) pressed inside at
(15,15) with button code 1. -/
theorem C11_press_transitions_witness :
    (sampleButton.pressNotify 15 15 1 0).button.state = State.Pressed_In ∧
    (sampleButton.pressNotify 15 15 1 0).button.pressedButton
      = Int.lor sampleButton.pressedButton 1 ∧
    clicks (sampleButton.pressNotify 15 15 1 0).events = [] :=
  have h := C11_press_transitions sampleButton 15 15 1 0 (by decide) (by decide)
  ⟨(h.1 (by decide) (by decide)).1, (h.1 (by decide) (by decide)).2, h.2.2.2.2⟩

/-! ## C12: the tooltip -/

/-- C12: for every button, every stored tooltip text `t` and every point,
`getToolTip` returns `t` if the point is inside and the empty string otherwise;
in particular it returns the empty string at every point when the button is
invisible.  Storing the text does not change which points are inside, and
`getToolTip` is a function of the button: it writes no member. -/
theorem C12_tooltip_only_inside (b : LWButton) (t : String) (x y : Int) :
    (b.setToolTip t).getToolTip x y = (if b.inside x y = true then t else "") ∧
    b.getToolTip x y = (if b.inside x y = true then b.toolTip else "") ∧
    (b.state = State.Invisible → (b.setToolTip t).getToolTip x y = "") := by
  have hin : (b.setToolTip t).inside x y = b.inside x y :=
    inside_congr b (b.setToolTip t) x y rfl rfl rfl rfl Iff.rfl
  refine ⟨?_, rfl, ?_⟩
  · unfold LWButton.getToolTip
    rw [hin]
    rfl
  · intro hs
    unfold LWButton.getToolTip
    rw [hin]
    simp [LWButton.inside, hs]

/-! ## C13: redraw requests track state changes -/

/-- The number of redraw requests made by `notifyRedraw`. -/
theorem redrawCount_notifyRedraw (b : LWButton) :
    redrawCount b.notifyRedraw = if b.listener.isSome = true then 1 else 0 := by
  unfold LWButton.notifyRedraw redrawCount
  split <;> simp

/-- The click dispatch makes at most the `button1Pressed` call. -/
theorem dispatchClick_eq (F : PressedFlags) (b : LWButton) :
    b.dispatchClick F =
      if Int.land b.pressedButton F.Button3 ≠ 0 then
        [Notification.button1Pressed b.actionCode b.actionData]
      else [] := by
  unfold LWButton.dispatchClick
  by_cases h : Int.land b.pressedButton F.Button3 ≠ 0
  · rw [if_pos h, if_pos h]
  · rw [if_neg h, if_neg h, if_neg h, if_neg h]

/-- The click dispatch makes no redraw request. -/
theorem redrawCount_dispatchClick (F : PressedFlags) (b : LWButton) :
    redrawCount (b.dispatchClick F) = 0 := by
  rw [dispatchClick_eq]
  unfold redrawCount
  split <;> simp

/-- The listener calls of the motion handler. -/
theorem motionNotify_events (b : LWButton) (x y bstate : Int) :
    (b.motionNotify x y bstate).events =
      if (b.motionNotify x y bstate).button.state ≠ b.state then b.notifyRedraw else [] := by
  by_cases hvis : b.state = State.Invisible
  · simp [LWButton.motionNotify, hvis]
  · rw [motionNotify_visible b x y bstate hvis]
    by_cases hc : b.state = motionState b.state (b.inside x y)
    · simp [hc.symm]
    · simp [hc, Ne.symm hc]

/-- The listener calls of the press handler. -/
theorem pressNotify_events (b : LWButton) (x y button bstate : Int) :
    (b.pressNotify x y button bstate).events =
      if (b.pressNotify x y button bstate).button.state ≠ b.state then b.notifyRedraw
      else [] := by
  by_cases hg : b.state = State.Invisible ∨ button > 2
  · simp [LWButton.pressNotify, hg]
  · have hvis : b.state ≠ State.Invisible := fun h => hg (Or.inl h)
    have hb : button ≤ 2 := not_lt.mp (fun h => hg (Or.inr h))
    rw [pressNotify_visible b x y button bstate hvis hb]
    by_cases hc : b.state = pressState b.state (b.inside x y)
    · simp [hc.symm]
    · simp [hc, Ne.symm hc]

/-- The listener calls of the release handler: the redraw request on a state
change, then the click dispatch. -/
theorem releaseNotify_events (F : PressedFlags) (b : LWButton) (x y button bstate : Int) :
    (b.releaseNotify F x y button bstate).events =
      (if (b.releaseNotify F x y button bstate).button.state ≠ b.state then b.notifyRedraw
        else []) ++
      (if button ≤ 2 ∧ b.releaseAction x y = true ∧ b.listener.isSome = true then
        b.dispatchClick F else []) := by
  by_cases hg : b.state = State.Invisible ∨ button > 2
  · have hr : b.releaseNotify F x y button bstate = ⟨b, false, []⟩ := by
      simp [LWButton.releaseNotify, hg]
    rw [hr]
    rcases hg with hs | hbig
    · simp [LWButton.releaseAction, LWButton.inside, hs]
    · have : ¬ button ≤ 2 := not_le.mpr hbig
      simp [this]
  · have hvis : b.state ≠ State.Invisible := fun h => hg (Or.inl h)
    have hb : button ≤ 2 := not_lt.mp (fun h => hg (Or.inr h))
    rw [releaseNotify_visible F b x y button bstate hvis hb]
    by_cases hc : b.state = (if b.releaseAction x y = true then State.Over else State.Normal)
    · simp [hc.symm, hb]
    · simp [hc, Ne.symm hc, hb]

/-- The listener calls of `show`. -/
theorem show_events (b : LWButton) :
    b.show_.events = if b.show_.button.state ≠ b.state then b.notifyRedraw else [] := by
  by_cases hs : b.state = State.Invisible
  · simp [LWButton.show_, hs]
  · simp [LWButton.show_, hs]

/-- The listener calls of `hide`. -/
theorem hide_events (b : LWButton) :
    b.hide.events = if b.hide.button.state ≠ b.state then b.notifyRedraw else [] := by
  by_cases hs : b.state = State.Invisible
  · simp [LWButton.hide, hs]
  · simp [LWButton.hide, hs, Ne.symm hs]

/-- With a listener set, a guarded redraw request counts one exactly when the
guard holds. -/
theorem redrawCount_guarded (c : Prop) [Decidable c] (b : LWButton)
    (hl : b.listener.isSome = true) :
    redrawCount (if c then b.notifyRedraw else []) = if c then 1 else 0 := by
  by_cases hc : c
  · rw [if_pos hc, if_pos hc, redrawCount_notifyRedraw, if_pos hl]
  · rw [if_neg hc, if_neg hc]
    rfl

/-- Without a listener, a guarded redraw request is no call at all. -/
theorem guarded_notifyRedraw_none (c : Prop) [Decidable c] (b : LWButton)
    (hl : b.listener = none) :
    (if c then b.notifyRedraw else []) = [] := by
  by_cases hc : c
  · rw [if_pos hc]
    simp [LWButton.notifyRedraw, hl]
  · rw [if_neg hc]

/-- The state and the return value of the motion handler do not depend on the
listener. -/
theorem motionNotify_listener (b : LWButton) (l : Option Nat) (x y bstate : Int) :
    ({ b with listener := l }.motionNotify x y bstate).button.state
      = (b.motionNotify x y bstate).button.state ∧
    ({ b with listener := l }.motionNotify x y bstate).ret = (b.motionNotify x y bstate).ret := by
  by_cases hvis : b.state = State.Invisible
  · simp [LWButton.motionNotify, hvis]
  · rw [motionNotify_visible b x y bstate hvis,
      motionNotify_visible { b with listener := l } x y bstate hvis]
    exact ⟨rfl, rfl⟩

/-- The state and the return value of the press handler do not depend on the
listener. -/
theorem pressNotify_listener (b : LWButton) (l : Option Nat) (x y button bstate : Int) :
    ({ b with listener := l }.pressNotify x y button bstate).button.state
      = (b.pressNotify x y button bstate).button.state ∧
    ({ b with listener := l }.pressNotify x y button bstate).ret
      = (b.pressNotify x y button bstate).ret := by
  by_cases hg : b.state = State.Invisible ∨ button > 2
  · simp [LWButton.pressNotify, hg]
  · have hvis : b.state ≠ State.Invisible := fun h => hg (Or.inl h)
    have hb : button ≤ 2 := not_lt.mp (fun h => hg (Or.inr h))
    rw [pressNotify_visible b x y button bstate hvis hb,
      pressNotify_visible { b with listener := l } x y button bstate hvis hb]
    exact ⟨rfl, rfl⟩

/-- The state and the return value of the release handler do not depend on the
listener. -/
theorem releaseNotify_listener (F : PressedFlags) (b : LWButton) (l : Option Nat)
    (x y button bstate : Int) :
    ({ b with listener := l }.releaseNotify F x y button bstate).button.state
      = (b.releaseNotify F x y button bstate).button.state ∧
    ({ b with listener := l }.releaseNotify F x y button bstate).ret
      = (b.releaseNotify F x y button bstate).ret := by
  by_cases hg : b.state = State.Invisible ∨ button > 2
  · simp [LWButton.releaseNotify, hg]
  · have hvis : b.state ≠ State.Invisible := fun h => hg (Or.inl h)
    have hb : button ≤ 2 := not_lt.mp (fun h => hg (Or.inr h))
    rw [releaseNotify_visible F b x y button bstate hvis hb,
      releaseNotify_visible F { b with listener := l } x y button bstate hvis hb]
    exact ⟨rfl, rfl⟩

/-- C13: for each of `motionNotify`, `pressNotify`, `releaseNotify`, `show` and
`hide`, for every prior button and every argument: with a listener set the
operation calls `redrawNeeded` exactly once if the state after differs from the
state before and not at all if it is the same; with no listener set it calls
nothing; and the resulting state and the return value are the same whatever the
listener is. -/
theorem C13_redraw_tracks_state_change (F : PressedFlags) (b : LWButton)
    (x y button bstate : Int) (l : Option Nat) :
    (b.listener.isSome = true →
      redrawCount (b.motionNotify x y bstate).events
        = (if (b.motionNotify x y bstate).button.state ≠ b.state then 1 else 0) ∧
      redrawCount (b.pressNotify x y button bstate).events
        = (if (b.pressNotify x y button bstate).button.state ≠ b.state then 1 else 0) ∧
      redrawCount (b.releaseNotify F x y button bstate).events
        = (if (b.releaseNotify F x y button bstate).button.state ≠ b.state then 1 else 0) ∧
      redrawCount b.show_.events = (if b.show_.button.state ≠ b.state then 1 else 0) ∧
      redrawCount b.hide.events = (if b.hide.button.state ≠ b.state then 1 else 0)) ∧
    (b.listener = none →
      (b.motionNotify x y bstate).events = [] ∧
      (b.pressNotify x y button bstate).events = [] ∧
      (b.releaseNotify F x y button bstate).events = [] ∧
      b.show_.events = [] ∧
      b.hide.events = []) ∧
    (({ b with listener := l }.motionNotify x y bstate).button.state
        = (b.motionNotify x y bstate).button.state ∧
      ({ b with listener := l }.motionNotify x y bstate).ret
        = (b.motionNotify x y bstate).ret) ∧
    (({ b with listener := l }.pressNotify x y button bstate).button.state
        = (b.pressNotify x y button bstate).button.state ∧
      ({ b with listener := l }.pressNotify x y button bstate).ret
        = (b.pressNotify x y button bstate).ret) ∧
    (({ b with listener := l }.releaseNotify F x y button bstate).button.state
        = (b.releaseNotify F x y button bstate).button.state ∧
      ({ b with listener := l }.releaseNotify F x y button bstate).ret
        = (b.releaseNotify F x y button bstate).ret) ∧
    ({ b with listener := l }.show_).button.state = b.show_.button.state ∧
    ({ b with listener := l }.hide).button.state = b.hide.button.state := by
  refine ⟨?_, ?_, motionNotify_listener b l x y bstate, pressNotify_listener b l x y button bstate,
    releaseNotify_listener F b l x y button bstate, ?_, ?_⟩
  · intro hl
    refine ⟨?_, ?_, ?_, ?_, ?_⟩
    · rw [motionNotify_events]
      exact redrawCount_guarded _ b hl
    · rw [pressNotify_events]
      exact redrawCount_guarded _ b hl
    · rw [releaseNotify_events]
      have happ : ∀ p q : List Notification, redrawCount (p ++ q) = redrawCount p + redrawCount q :=
        fun p q => List.count_append _ p q
      rw [happ, redrawCount_guarded _ b hl]
      have hz : redrawCount (if button ≤ 2 ∧ b.releaseAction x y = true ∧ b.listener.isSome = true
          then b.dispatchClick F else []) = 0 := by
        split
        · exact redrawCount_dispatchClick F b
        · rfl
      rw [hz, Nat.add_zero]
    · rw [show_events]
      exact redrawCount_guarded _ b hl
    · rw [hide_events]
      exact redrawCount_guarded _ b hl
  · intro hl
    refine ⟨?_, ?_, ?_, ?_, ?_⟩
    · rw [motionNotify_events]
      exact guarded_notifyRedraw_none _ b hl
    · rw [pressNotify_events]
      exact guarded_notifyRedraw_none _ b hl
    · rw [releaseNotify_events, guarded_notifyRedraw_none _ b hl]
      simp [hl]
    · rw [show_events]
      exact guarded_notifyRedraw_none _ b hl
    · rw [hide_events]
      exact guarded_notifyRedraw_none _ b hl
  · by_cases hs : b.state = State.Invisible <;> simp [LWButton.show_, hs]
  · by_cases hs : b.state = State.Invisible <;> simp [LWButton.hide, hs]

/-! ## C14: the release dispatch -/

/-- The click callbacks of `show`: none. -/
theorem clicks_show (b : LWButton) : clicks b.show_.events = [] := by
  rw [show_events]
  split
  · exact clicks_notifyRedraw b
  · rfl

/-- The click callbacks of `hide`: none. -/
theorem clicks_hide (b : LWButton) : clicks b.hide.events = [] := by
  rw [hide_events]
  split
  · exact clicks_notifyRedraw b
  · rfl

/-- The click callbacks of the release handler. -/
theorem clicks_releaseNotify (F : PressedFlags) (b : LWButton) (x y button bstate : Int) :
    clicks (b.releaseNotify F x y button bstate).events =
      if button ≤ 2 ∧ b.releaseAction x y = true ∧ b.listener.isSome = true ∧
          Int.land b.pressedButton F.Button3 ≠ 0 then
        [Notification.button1Pressed b.actionCode b.actionData]
      else [] := by
  rw [releaseNotify_events, clicks_append]
  have h1 : clicks (if (b.releaseNotify F x y button bstate).button.state ≠ b.state then
      b.notifyRedraw else []) = [] := by
    split
    · exact clicks_notifyRedraw b
    · rfl
  rw [h1, List.nil_append, dispatchClick_eq]
  by_cases hg : button ≤ 2 ∧ b.releaseAction x y = true ∧ b.listener.isSome = true
  · by_cases hm : Int.land b.pressedButton F.Button3 ≠ 0
    · rw [if_pos hg, if_pos hm, if_pos ⟨hg.1, hg.2.1, hg.2.2, hm⟩]
      rfl
    · rw [if_pos hg, if_neg hm, if_neg (fun h => hm h.2.2.2)]
      rfl
  · rw [if_neg hg, if_neg (fun h => hg ⟨h.1, h.2.1, h.2.2.1⟩)]
    rfl

/-- C14: all three branches of the release dispatch test the `Button3` flag.  For
every button, every mask and every argument, `releaseNotify` never calls
`button2Pressed` or `button3Pressed`; it calls `button1Pressed` (once) exactly
when the release is accepted and counts as a click, a listener is set and the
mask has a bit in common with `Button3`, and it calls no click callback
otherwise.  `motionNotify`, `pressNotify`, `show` and `hide` call no click
callback. -/
theorem C14_release_dispatch_tests_button3_only (F : PressedFlags) (b : LWButton)
    (x y button bstate : Int) :
    (∀ c d, Notification.button2Pressed c d ∉ (b.releaseNotify F x y button bstate).events ∧
      Notification.button3Pressed c d ∉ (b.releaseNotify F x y button bstate).events) ∧
    clicks (b.releaseNotify F x y button bstate).events =
      (if button ≤ 2 ∧ b.releaseAction x y = true ∧ b.listener.isSome = true ∧
          Int.land b.pressedButton F.Button3 ≠ 0 then
        [Notification.button1Pressed b.actionCode b.actionData]
      else []) ∧
    clicks (b.motionNotify x y bstate).events = [] ∧
    clicks (b.pressNotify x y button bstate).events = [] ∧
    clicks b.show_.events = [] ∧
    clicks b.hide.events = [] := by
  refine ⟨?_, clicks_releaseNotify F b x y button bstate, clicks_motionNotify b x y bstate,
    clicks_pressNotify b x y button bstate, clicks_show b, clicks_hide b⟩
  intro c d
  have hcl := clicks_releaseNotify F b x y button bstate
  have hmem : ∀ n : Notification, n.isClick = true →
      n ∈ (b.releaseNotify F x y button bstate).events →
      n = Notification.button1Pressed b.actionCode b.actionData := by
    intro n hn hin
    have h2 : n ∈ clicks (b.releaseNotify F x y button bstate).events :=
      List.mem_filter.mpr ⟨hin, hn⟩
    rw [hcl] at h2
    split at h2
    · exact List.mem_singleton.mp h2
    · exact absurd h2 (List.not_mem_nil n)
  constructor
  · intro hin
    exact Notification.noConfusion (hmem (Notification.button2Pressed c d) rfl hin)
  · intro hin
    exact Notification.noConfusion (hmem (Notification.button3Pressed c d) rfl hin)

/-! ## Bit-level facts about two's-complement integers -/

/-- A natural number has no bit at or above its own value. -/
theorem nat_testBit_of_le (a k : Nat) (h : a ≤ k) : a.testBit k = false :=
  Nat.testBit_lt_two_pow
    (lt_of_lt_of_le (Nat.lt_two_pow a) (Nat.pow_le_pow_right (by decide) h))

/-- Two integers with the same bits are equal. -/
theorem int_eq_of_testBit_eq (m n : Int) (h : ∀ k, Int.testBit m k = Int.testBit n k) :
    m = n := by
  cases m with
  | ofNat a =>
    cases n with
    | ofNat c =>
      have hac : a = c := Nat.eq_of_testBit_eq (fun k => h k)
      rw [hac]
    | negSucc c =>
      exfalso
      have h1 := h (a + c)
      simp only [Int.testBit] at h1
      rw [nat_testBit_of_le a (a + c) (Nat.le_add_right a c),
        nat_testBit_of_le c (a + c) (Nat.le_add_left c a)] at h1
      exact absurd h1 (by decide)
  | negSucc a =>
    cases n with
    | ofNat c =>
      exfalso
      have h1 := h (a + c)
      simp only [Int.testBit] at h1
      rw [nat_testBit_of_le a (a + c) (Nat.le_add_right a c),
        nat_testBit_of_le c (a + c) (Nat.le_add_left c a)] at h1
      exact absurd h1 (by decide)
    | negSucc c =>
      have hac : a = c := Nat.eq_of_testBit_eq (fun k => by
        have h1 := h k
        simp only [Int.testBit] at h1
        cases ha : a.testBit k <;> cases hc : c.testBit k <;> simp_all)
      rw [hac]

/-- Or-ing bits into a mask keeps every bit of the mask. -/
theorem land_lor_absorb (m x : Int) : Int.land m (Int.lor m x) = m := by
  apply int_eq_of_testBit_eq
  intro k
  rw [Int.testBit_land, Int.testBit_lor]
  cases Int.testBit m k <;> simp

/-- A mask keeps every bit of itself. -/
theorem land_self_eq (m : Int) : Int.land m m = m := by
  apply int_eq_of_testBit_eq
  intro k
  rw [Int.testBit_land]
  cases Int.testBit m k <;> rfl

/-- Every bit of -1 is set. -/
theorem testBit_neg_one (k : Nat) : Int.testBit (-1) k = true := by
  show Int.testBit (Int.negSucc 0) k = true
  simp [Int.testBit]

/-- Or-ing a value and then its complement into a mask sets every bit. -/
theorem lor_lor_lnot (m x : Int) : Int.lor (Int.lor m x) (Int.lnot x) = -1 := by
  apply int_eq_of_testBit_eq
  intro k
  rw [Int.testBit_lor, Int.testBit_lor, Int.testBit_lnot, testBit_neg_one]
  cases Int.testBit m k <;> cases Int.testBit x k <;> rfl

/-! ## C15: the mask after press and release -/

/-- The mask after a press inside a visible button that is not pressed in,
followed by a release with the same button code: every bit is set. -/
theorem pressThenRelease_mask (F : PressedFlags) (b : LWButton) (x y button : Int)
    (hvis : b.state ≠ State.Invisible) (hb : button ≤ 2) (hin : b.inside x y = true)
    (hs : b.state ≠ State.Pressed_In) :
    (b.pressThenRelease F x y button).button.pressedButton = -1 := by
  have hp := pressNotify_visible b x y button 0 hvis hb
  have ht : pressTaken b.state (b.inside x y) = true := by
    rw [hin]
    cases hst : b.state <;> simp_all [pressTaken]
  have hps : pressState b.state (b.inside x y) = State.Pressed_In := by
    simp [pressState, ht]
  rw [ht, hps] at hp
  show ((b.pressNotify x y button 0).button.releaseNotify F x y button 0).button.pressedButton
    = -1
  have hv1 : (b.pressNotify x y button 0).button.state ≠ State.Invisible := by
    rw [hp]
    exact fun h => State.noConfusion h
  rw [releaseNotify_visible F _ x y button 0 hv1 hb, hp]
  exact lor_lor_lnot b.pressedButton button

/-- C15 (the code departs from the claim): the sample button is visible with an
empty mask and (15,15) is inside; the press with button code 1 sets the mask to
1, and after the release with the same code the mask is -1 (every bit set), not
empty; the same happens with button code 2.  The release or-s the complement of
the button code into the mask instead of clearing the button's bits, and this
happens for every visible button that is not already pressed in. -/
theorem C15_release_fills_the_mask :
    sampleButton.state ≠ State.Invisible ∧
    sampleButton.pressedButton = stdFlags.None ∧
    sampleButton.inside 15 15 = true ∧
    (sampleButton.pressNotify 15 15 1 0).button.pressedButton = 1 ∧
    (sampleButton.pressThenRelease stdFlags 15 15 1).button.pressedButton = -1 ∧
    (sampleButton.pressThenRelease stdFlags 15 15 2).button.pressedButton = -1 ∧
    (sampleButton.pressThenRelease stdFlags 15 15 1).button.pressedButton ≠ stdFlags.None ∧
    (∀ (F : PressedFlags) (b : LWButton) (x y button : Int),
      b.state ≠ State.Invisible → button ≤ 2 → b.inside x y = true →
      b.state ≠ State.Pressed_In →
      (b.pressThenRelease F x y button).button.pressedButton = -1) := by
  have h1 := pressThenRelease_mask stdFlags sampleButton 15 15 1 (by decide) (by decide)
    (by decide) (by decide)
  have h2 := pressThenRelease_mask stdFlags sampleButton 15 15 2 (by decide) (by decide)
    (by decide) (by decide)
  refine ⟨by decide, by decide, by decide, by decide, h1, h2, ?_, ?_⟩
  · rw [h1]
    decide
  · intro F b x y button hvis hb hin hs
    exact pressThenRelease_mask F b x y button hvis hb hin hs

/-! ## C16: the drawing routine -/

/-- The mask after the press handler: the old mask, possibly with the button
code or-ed in. -/
theorem mask_pressNotify (b : LWButton) (x y button bstate : Int) :
    (b.pressNotify x y button bstate).button.pressedButton = b.pressedButton ∨
    (b.pressNotify x y button bstate).button.pressedButton
      = Int.lor b.pressedButton button := by
  by_cases hg : b.state = State.Invisible ∨ button > 2
  · left
    simp [LWButton.pressNotify, hg]
  · have hvis : b.state ≠ State.Invisible := fun h => hg (Or.inl h)
    have hb : button ≤ 2 := not_lt.mp (fun h => hg (Or.inr h))
    rw [pressNotify_visible b x y button bstate hvis hb]
    by_cases ht : pressTaken b.state (b.inside x y) = true
    · right
      simp [ht]
    · left
      simp [ht]

/-- The mask after the release handler: the old mask, possibly with the
complement of the button code or-ed in. -/
theorem mask_releaseNotify (F : PressedFlags) (b : LWButton) (x y button bstate : Int) :
    (b.releaseNotify F x y button bstate).button.pressedButton = b.pressedButton ∨
    (b.releaseNotify F x y button bstate).button.pressedButton
      = Int.lor b.pressedButton (Int.lnot button) := by
  by_cases hg : b.state = State.Invisible ∨ button > 2
  · left
    simp [LWButton.releaseNotify, hg]
  · have hvis : b.state ≠ State.Invisible := fun h => hg (Or.inl h)
    have hb : button ≤ 2 := not_lt.mp (fun h => hg (Or.inr h))
    right
    rw [releaseNotify_visible F b x y button bstate hvis hb]

/-- The mask after any operation: the old mask, possibly with some bits or-ed
in. -/
theorem mask_apply (F : PressedFlags) (b : LWButton) (op : Op) :
    (op.apply F b).pressedButton = b.pressedButton ∨
    ∃ v : Int, (op.apply F b).pressedButton = Int.lor b.pressedButton v := by
  cases op with
  | setIcon i => cases i <;> exact Or.inl rfl
  | setPosition x y => exact Or.inl rfl
  | setColors bg fg => exact Or.inl rfl
  | motionNotify x y bstate =>
    left
    show (b.motionNotify x y bstate).button.pressedButton = b.pressedButton
    by_cases hvis : b.state = State.Invisible
    · simp [LWButton.motionNotify, hvis]
    · rw [motionNotify_visible b x y bstate hvis]
  | pressNotify x y button bstate =>
    rcases mask_pressNotify b x y button bstate with h | h
    · exact Or.inl h
    · exact Or.inr ⟨button, h⟩
  | releaseNotify x y button bstate =>
    rcases mask_releaseNotify F b x y button bstate with h | h
    · exact Or.inl h
    · exact Or.inr ⟨Int.lnot button, h⟩
  | show_ =>
    left
    show b.show_.button.pressedButton = b.pressedButton
    unfold LWButton.show_
    split <;> rfl
  | hide =>
    left
    show b.hide.button.pressedButton = b.pressedButton
    unfold LWButton.hide
    split <;> rfl
  | setToolTip t => exact Or.inl rfl
  | redraw => exact Or.inl rfl

/-- C17: the pressed mask never loses a bit.  For every operation and every
argument, (old mask AND new mask) = old mask; and every accepted `releaseNotify`
(visible button, button code at most 2) sets the mask to (old mask OR NOT
button), so that afterwards every bit that is not a bit of the button code is
set. -/
theorem C17_mask_never_loses_a_bit (F : PressedFlags) (b : LWButton) (op : Op)
    (x y button bstate : Int) :
    Int.land b.pressedButton (op.apply F b).pressedButton = b.pressedButton ∧
    (b.state ≠ State.Invisible → button ≤ 2 →
      (b.releaseNotify F x y button bstate).button.pressedButton
        = Int.lor b.pressedButton (Int.lnot button) ∧
      ∀ k : Nat, Int.testBit button k = false →
        Int.testBit (b.releaseNotify F x y button bstate).button.pressedButton k = true) := by
  constructor
  · rcases mask_apply F b op with h | ⟨v, h⟩
    · rw [h]
      exact land_self_eq b.pressedButton
    · rw [h]
      exact land_lor_absorb b.pressedButton v
  · intro hvis hb
    have hm : (b.releaseNotify F x y button bstate).button.pressedButton
        = Int.lor b.pressedButton (Int.lnot button) := by
      rw [releaseNotify_visible F b x y button bstate hvis hb]
    refine ⟨hm, ?_⟩
    intro k hk
    rw [hm, Int.testBit_lor, Int.testBit_lnot, hk]
    simp

/-! ## C18: hover consistency -/

/-- C18: for every visible button and every point, after `motionNotify` the
state is `Over` or `Pressed_In` if the point is inside and `Normal` or
`Pressed_Out` if it is outside; whereas `releaseNotify` does not re-establish
this: on a button in state `Over`, released at a point inside with any accepted
button code, it leaves the state `Normal`, returns true and invokes no click
callback; the sample button in state `Over` at (15,15) is such a case. -/
theorem C18_motion_consistent_release_not (b : LWButton) (x y bstate : Int)
    (hvis : b.state ≠ State.Invisible) :
    (b.inside x y = true →
      (b.motionNotify x y bstate).button.state = State.Over ∨
      (b.motionNotify x y bstate).button.state = State.Pressed_In) ∧
    (b.inside x y = false →
      (b.motionNotify x y bstate).button.state = State.Normal ∨
      (b.motionNotify x y bstate).button.state = State.Pressed_Out) ∧
    (∀ (F : PressedFlags) (button : Int), b.state = State.Over → b.inside x y = true →
      button ≤ 2 →
      (b.releaseNotify F x y button bstate).button.state = State.Normal ∧
      (b.releaseNotify F x y button bstate).button.inside x y = true ∧
      (b.releaseNotify F x y button bstate).ret = true ∧
      clicks (b.releaseNotify F x y button bstate).events = []) ∧
    (sampleOver.state = State.Over ∧ sampleOver.inside 15 15 = true ∧
      ∀ (F : PressedFlags) (button : Int), button ≤ 2 →
        (sampleOver.releaseNotify F 15 15 button 0).button.state = State.Normal ∧
        (sampleOver.releaseNotify F 15 15 button 0).ret = true ∧
        clicks (sampleOver.releaseNotify F 15 15 button 0).events = []) := by
  have hrel : ∀ (c : LWButton) (u v bs : Int) (F : PressedFlags) (button : Int),
      c.state = State.Over → c.inside u v = true → button ≤ 2 →
      (c.releaseNotify F u v button bs).button.state = State.Normal ∧
      (c.releaseNotify F u v button bs).button.inside u v = true ∧
      (c.releaseNotify F u v button bs).ret = true ∧
      clicks (c.releaseNotify F u v button bs).events = [] := by
    intro c u v bs F button hs hin hb
    have hv : c.state ≠ State.Invisible := by
      rw [hs]
      exact fun h => State.noConfusion h
    have ha : c.releaseAction u v = false := by
      simp [LWButton.releaseAction, hs]
    have hcl := clicks_releaseNotify_of_not_action F c u v button bs ha
    have hform := releaseNotify_visible F c u v button bs hv hb
    rw [ha] at hform
    refine ⟨?_, ?_, ?_, hcl⟩
    · rw [hform]
      simp
    · rw [← hin]
      refine inside_congr c _ u v ?_ ?_ ?_ ?_ ?_
      · rw [hform]
      · rw [hform]
      · rw [hform]
      · rw [hform]
      · rw [hform]
        simp [hs]
    · rw [hform]
      simp [hs]
  refine ⟨?_, ?_, ?_, by decide, by decide, ?_⟩
  · intro hin
    rw [motionNotify_visible b x y bstate hvis, hin]
    cases hs : b.state <;> simp_all [motionState]
  · intro hin
    rw [motionNotify_visible b x y bstate hvis, hin]
    cases hs : b.state <;> simp_all [motionState]
  · intro F button hs hin hb
    exact hrel b x y bstate F button hs hin hb
  · intro F button hb
    have h := hrel sampleOver 15 15 0 F button (by decide) (by decide) hb
    exact ⟨h.1, h.2.2.1, h.2.2.2⟩

/-- C18, at the sample button in state `Over` with the pointer at (15,15). -/
theorem C18_motion_consistent_release_not_witness :
    ((sampleOver.motionNotify 15 15 0).button.state = State.Over ∨
      (sampleOver.motionNotify 15 15 0).button.state = State.Pressed_In) ∧
    (sampleOver.releaseNotify stdFlags 15 15 1 0).button.state = State.Normal ∧
    (sampleOver.releaseNotify stdFlags 15 15 1 0).ret = true ∧
    clicks (sampleOver.releaseNotify stdFlags 15 15 1 0).events = [] :=
  have h := C18_motion_consistent_release_not sampleOver 15 15 0 (by decide)
  have h3 := h.2.2.1 stdFlags 1 (by decide) (by decide) (by decide)
  ⟨h.1 (by decide), h3.1, h3.2.2.1, h3.2.2.2⟩

end Rtgui
